import Mathlib

/-!
Verification development for the micro-mcp repository (src/micro_mcp/mcp_server.py).

The embedding models the protocol engine of `MCPServer`:
JSON values as they flow through the MicroPython `json` module, the tool and
resource registries (Python dicts, modelled as insertion-ordered association
lists with in-place overwrite on re-assignment), the JSON-RPC dispatcher
`_handle_jsonrpc`, the HTTP response writer `_send_http_response`, and the
per-connection router `_handle_request` (its text-processing half, operating on
the decoded request text assembled by the recv loop).

Python exceptions are modelled with `Except String`: `Except.error msg` stands
for a raised exception whose `str()` is `msg` (exact exception texts of the
runtime are model artifacts; what matters is which operations raise).
The external collaborators are parameters: tool handlers are functions
`JObj → Except String J` (called as `handler(**arguments)`), resource handlers
`Unit → Except String J`, `json.loads` is a parameter `loads : String → Except String J`
of the router, and the environment pair `machine.unique_id()` / `time.ticks_ms()`
is modelled by a fixed hex string and a stream of tick readings in the state.
-/

mutual
/-- JSON values (what `json.loads` can produce and `json.dumps` consumes).
Numbers are modelled as integers: no claim involves floats. -/
inductive J where
  | null
  | bool (b : Bool)
  | num (n : Int)
  | str (s : String)
  | arr (xs : JArr)
  | obj (kvs : JObj)
deriving Repr

inductive JArr where
  | nil
  | cons (hd : J) (tl : JArr)
deriving Repr

inductive JObj where
  | nil
  | cons (k : String) (v : J) (tl : JObj)
deriving Repr
end

def jarr : List J → JArr
  | [] => .nil
  | x :: xs => .cons x (jarr xs)

def jobj : List (String × J) → JObj
  | [] => .nil
  | (k, v) :: kvs => .cons k v (jobj kvs)

def jarrToList : JArr → List J
  | .nil => []
  | .cons x tl => x :: jarrToList tl

/-- First-match lookup in a JSON object (Python dict keys are unique). -/
def JObj.get : JObj → String → Option J
  | .nil, _ => none
  | .cons k v tl, key => if k = key then some v else tl.get key

/-- Python `==` between a json value and a string literal (`method == "initialize"`). -/
def J.isStr : J → String → Bool
  | .str t, s => t = s
  | _, _ => false

/-- Python truthiness of a json value (`if resp:`). -/
def pyTruthy : J → Bool
  | .null => false
  | .bool b => b
  | .num n => n ≠ 0
  | .str s => s ≠ ""
  | .arr .nil => false
  | .arr _ => true
  | .obj .nil => false
  | .obj _ => true

/-- Hashable json values may be used with `in` on a dict; lists and dicts raise
`TypeError: unhashable type`. -/
def pyHashable : J → Bool
  | .arr _ => false
  | .obj _ => false
  | _ => true

def escapeChars : List Char → List Char
  | [] => []
  | c :: cs =>
    if c = '\\' then '\\' :: '\\' :: escapeChars cs
    else if c = '"' then '\\' :: '"' :: escapeChars cs
    else c :: escapeChars cs

def dumpsStr (s : String) : String := "\"" ++ String.mk (escapeChars s.data) ++ "\""

mutual
/-- Model of `json.dumps` (default separators; string escaping restricted to
quote and backslash, which covers every string the server serializes). -/
def dumps : J → String
  | .null => "null"
  | .bool true => "true"
  | .bool false => "false"
  | .num n => toString n
  | .str s => dumpsStr s
  | .arr xs => "[" ++ dumpsArr xs ++ "]"
  | .obj kvs => "\x7b" ++ dumpsObj kvs ++ "\x7d"

def dumpsArr : JArr → String
  | .nil => ""
  | .cons x .nil => dumps x
  | .cons x (.cons y tl) => dumps x ++ ", " ++ dumpsArr (.cons y tl)

def dumpsObj : JObj → String
  | .nil => ""
  | .cons k v .nil => dumpsStr k ++ ": " ++ dumps v
  | .cons k v (.cons k2 v2 tl) =>
      dumpsStr k ++ ": " ++ dumps v ++ ", " ++ dumpsObj (.cons k2 v2 tl)
end

/-- Python `str()` of a json value, as interpolated into the f-string error
messages. The `arr`/`obj` cases never reach a message (they are rejected as
unhashable before any message is built); they are rendered via `dumps`. -/
def pyStr : J → String
  | .null => "None"
  | .bool true => "True"
  | .bool false => "False"
  | .num n => toString n
  | .str s => s
  | v => dumps v

/-- Model of `v.get(key, dflt)` on a json value: AttributeError unless it is a dict. -/
def pyDictGet (v : J) (key : String) (dflt : J) : Except String J :=
  match v with
  | .obj kvs => .ok ((kvs.get key).getD dflt)
  | _ => .error "AttributeError: object has no attribute get"

-- ### Python-dict model: insertion-ordered association lists

/-- Model of `d[k] = v` on a Python dict: overwrite in place if present, else append. -/
def dictSet {α : Type} : List (String × α) → String → α → List (String × α)
  | [], key, v => [(key, v)]
  | (k, w) :: tl, key, v =>
    if k = key then (key, v) :: tl else (k, w) :: dictSet tl key v

/-- First-match lookup by string key (keys in a dict are unique). -/
def dictGetStr {α : Type} : List (String × α) → String → Option α
  | [], _ => none
  | (k, v) :: tl, key => if k = key then some v else dictGetStr tl key

/-- Model of `x in d` and `d[x]` with a json value as key: only string keys can match. -/
def dictFind {α : Type} (d : List (String × α)) : J → Option α
  | .str s => dictGetStr d s
  | _ => none

-- ### Server state (the mutable attributes of class MCPServer)

/-- Registry slot for one tool: the schema dict built at registration and the
opaque handler, called as `handler(**arguments)`. -/
structure ToolEntry where
  schema : J
  handler : JObj → Except String J

/-- Registry slot for one resource: schema dict and zero-argument handler. -/
structure ResourceEntry where
  schema : J
  handler : Unit → Except String J

/-- The server's mutable state plus its construction-time configuration and the
environment oracle: `uid_hex` models `binascii.hexlify(machine.unique_id()).decode()`
and `ticks` the successive readings of `time.ticks_ms()` consumed by session
creation. -/
structure MCPServer where
  server_name : String
  server_version : String
  protocol_version : String
  tools : List (String × ToolEntry)
  resources : List (String × ResourceEntry)
  session_id : Option String
  uid_hex : String
  ticks : List Nat

def capabilities : J := J.obj (jobj [("tools", J.obj .nil)])

def server_info (st : MCPServer) : J :=
  J.obj (jobj [("name", J.str st.server_name), ("version", J.str st.server_version)])

/-- Model of `register_tool` (the `tool` decorator writes the identical entry). -/
def register_tool (st : MCPServer) (name description : String) (input_schema : J)
    (handler : JObj → Except String J) : MCPServer :=
  let entry : ToolEntry :=
    { schema := J.obj (jobj [("name", J.str name), ("description", J.str description),
                             ("inputSchema", input_schema)])
    , handler := handler }
  { st with tools := dictSet st.tools name entry }

/-- Body of the `resource` decorator. -/
def register_resource (st : MCPServer) (uri name description mime_type : String)
    (handler : Unit → Except String J) : MCPServer :=
  let entry : ResourceEntry :=
    { schema := J.obj (jobj [("uri", J.str uri), ("name", J.str name),
                             ("description", J.str description),
                             ("mimeType", J.str mime_type)])
    , handler := handler }
  { st with resources := dictSet st.resources uri entry }

/-- Model of `_execute_tool`: the membership test runs outside the try block (an
unhashable name raises out of the function); the handler call, including the
`**arguments` splat, runs inside it, so any failure there is returned as an
error-shaped dict. -/
def execute_tool (tools : List (String × ToolEntry)) (tool_name arguments : J) :
    Except String J :=
  match tool_name with
  | .arr _ => .error "TypeError: unhashable type"
  | .obj _ => .error "TypeError: unhashable type"
  | _ =>
    match dictFind tools tool_name with
    | none => .ok (J.obj (jobj [("error", J.str ("Tool not found: " ++ pyStr tool_name))]))
    | some entry =>
      match arguments with
      | .obj kwargs =>
        match entry.handler kwargs with
        | .ok result => .ok result
        | .error e => .ok (J.obj (jobj [("error", J.str ("Tool execution failed: " ++ e))]))
      | _ => .ok (J.obj (jobj
          [("error", J.str "Tool execution failed: argument after ** must be a mapping")]))

/-- Model of `_execute_resource`: membership test outside the try (unhashable uri
raises); handler call and mimeType lookup inside it. Always returns a dict. -/
def execute_resource (resources : List (String × ResourceEntry)) (uri : J) :
    Except String JObj :=
  match uri with
  | .arr _ => .error "TypeError: unhashable type"
  | .obj _ => .error "TypeError: unhashable type"
  | _ =>
    match dictFind resources uri with
    | none => .ok (jobj [("error", J.str ("Resource not found: " ++ pyStr uri))])
    | some entry =>
      match entry.handler () with
      | .error e => .ok (jobj [("error", J.str ("Resource fetch failed: " ++ e))])
      | .ok content =>
        match entry.schema with
        | .obj skvs =>
          match skvs.get "mimeType" with
          | some mv => .ok (jobj [("content", content), ("mimeType", mv)])
          | none => .ok (jobj [("error", J.str "Resource fetch failed: KeyError: mimeType")])
        | _ => .ok (jobj [("error", J.str "Resource fetch failed: not subscriptable")])

-- ### JSON-RPC dispatcher (_handle_jsonrpc)

/-- Fresh session token: `binascii.hexlify(unique_id()).decode() + "-" + str(time.ticks_ms())`,
with the next tick reading taken from the environment oracle. -/
def new_session_id (st : MCPServer) : String :=
  st.uid_hex ++ "-" ++ Nat.repr (st.ticks.headD 0)

/-- A `{jsonrpc, id, result}` response dict. -/
def rpcResult (req_id result : J) : J :=
  J.obj (jobj [("jsonrpc", J.str "2.0"), ("id", req_id), ("result", result)])

/-- A `{jsonrpc, id, error: {code, message}}` response dict (string message). -/
def rpcError (req_id : J) (code : Int) (message : String) : J :=
  J.obj (jobj [("jsonrpc", J.str "2.0"), ("id", req_id),
               ("error", J.obj (jobj [("code", J.num code), ("message", J.str message)]))])

/-- The body of `_handle_jsonrpc`'s try block. Mutates the state only in the
`initialize` branch, which cannot raise afterwards, so an `Except.error` result
always leaves the state as it was. -/
def handle_jsonrpc_inner (st : MCPServer) (request : J) :
    Except String (MCPServer × Option J) :=
  match request with
  | .obj kvs =>
    let method := (kvs.get "method").getD J.null
    let params := (kvs.get "params").getD (J.obj .nil)
    let req_id := (kvs.get "id").getD J.null
    if method.isStr "initialize" then
      let sid := new_session_id st
      let st' := { st with session_id := some sid, ticks := st.ticks.tail }
      .ok (st', some (rpcResult req_id (J.obj (jobj
        [("protocolVersion", J.str st.protocol_version),
         ("capabilities", capabilities),
         ("serverInfo", server_info st),
         ("_meta", J.obj (jobj [("sessionId", J.str sid)]))]))))
    else if method.isStr "initialized" then
      .ok (st, none)
    else if method.isStr "tools/list" then
      .ok (st, some (rpcResult req_id (J.obj (jobj
        [("tools", J.arr (jarr (st.tools.map (fun kv => kv.2.schema))))]))))
    else if method.isStr "tools/call" then
      match pyDictGet params "name" J.null with
      | .error e => .error e
      | .ok tool_name =>
        match pyDictGet params "arguments" (J.obj .nil) with
        | .error e => .error e
        | .ok arguments =>
          match execute_tool st.tools tool_name arguments with
          | .error e => .error e
          | .ok result =>
            .ok (st, some (rpcResult req_id (J.obj (jobj
              [("content", J.arr (jarr [J.obj (jobj
                [("type", J.str "text"), ("text", J.str (dumps result))])]))]))))
    else if method.isStr "resources/list" then
      .ok (st, some (rpcResult req_id (J.obj (jobj
        [("resources", J.arr (jarr (st.resources.map (fun kv => kv.2.schema))))]))))
    else if method.isStr "resources/read" then
      match pyDictGet params "uri" J.null with
      | .error e => .error e
      | .ok uri =>
        match execute_resource st.resources uri with
        | .error e => .error e
        | .ok result =>
          match result.get "error" with
          | some emsg =>
            .ok (st, some (J.obj (jobj [("jsonrpc", J.str "2.0"), ("id", req_id),
              ("error", J.obj (jobj [("code", J.num (-32602)), ("message", emsg)]))])))
          | none =>
            match result.get "mimeType", result.get "content" with
            | some mv, some cv =>
              .ok (st, some (rpcResult req_id (J.obj (jobj
                [("contents", J.arr (jarr [J.obj (jobj
                  [("uri", uri), ("mimeType", mv), ("text", cv)])]))]))))
            | _, _ => .error "KeyError"
    else if method.isStr "ping" then
      .ok (st, some (rpcResult req_id (J.obj .nil)))
    else
      .ok (st, some (rpcError req_id (-32601) ("Method not found: " ++ pyStr method)))
  | _ => .error "AttributeError: object has no attribute get"

/-- Model of `_handle_jsonrpc`: the catch-all except clause converts a raised exception
into a `-32603` response — but it evaluates `request.get("id")`, which itself
raises when the request is not a dict, so for a non-dict request the exception
escapes the dispatcher. -/
def handle_jsonrpc (st : MCPServer) (request : J) :
    Except String (MCPServer × Option J) :=
  match handle_jsonrpc_inner st request with
  | .ok r => .ok r
  | .error e =>
    match request with
    | .obj kvs =>
      .ok (st, some (rpcError ((kvs.get "id").getD J.null) (-32603) ("Internal error: " ++ e)))
    | _ => .error "AttributeError: object has no attribute get"

/-- The batch loop of `_handle_request`: dispatch each element in order,
collect truthy responses (`if resp:`); an exception aborts the loop but keeps
the state mutations already made. -/
def handleBatch (st : MCPServer) : List J → MCPServer × Except String (List J)
  | [] => (st, .ok [])
  | r :: rest =>
    match handle_jsonrpc st r with
    | .error e => (st, .error e)
    | .ok (st1, resp) =>
      match handleBatch st1 rest with
      | (st2, .error e) => (st2, .error e)
      | (st2, .ok tl) =>
        (st2, .ok (match resp with
                   | some v => if pyTruthy v then v :: tl else tl
                   | none => tl))

-- ### HTTP layer (_send_http_response and _handle_request)

/-- One written HTTP response: status line, headers in emission order, body. -/
structure HttpResponse where
  status : String
  headers : List (String × String)
  body : String
deriving Repr, DecidableEq

/-- Model of `_send_http_response`: fixed CORS headers; the session header is attached
automatically only when a (truthy) session exists AND no extra-headers argument
was passed; extra headers are appended as given; Content-Length closes. -/
def send_http_response (session_id : Option String) (status content_type body : String)
    (extra_headers : Option (List (String × String))) : HttpResponse :=
  { status := status
  , headers :=
      [("Content-Type", content_type),
       ("Access-Control-Allow-Origin", "*"),
       ("Access-Control-Allow-Methods", "POST, GET, OPTIONS, DELETE"),
       ("Access-Control-Allow-Headers", "Content-Type, Mcp-Session-Id")]
      ++ (match session_id, extra_headers with
          | some sid, none => if sid ≠ "" then [("Mcp-Session-Id", sid)] else []
          | _, _ => [])
      ++ extra_headers.getD []
      ++ [("Content-Length", toString body.length)]
  , body := body }

/-- The 400 reply of the POST branch's except clause: a JSON-RPC-shaped parse
error (`code -32700`, no id key), message `"Parse error: " + str(e)`. -/
def parse_error_response (session_id : Option String) (e : String) : HttpResponse :=
  send_http_response session_id "400 Bad Request" "application/json"
    (dumps (J.obj (jobj [("jsonrpc", J.str "2.0"),
      ("error", J.obj (jobj [("code", J.num (-32700)),
                             ("message", J.str ("Parse error: " ++ e))]))]))) none

/-- The 200 reply of the POST branch: extra headers built from the (possibly
mutated) session slot, exactly as lines 463-470 of the source. -/
def post_ok_response (session_id : Option String) (response_body : String) : HttpResponse :=
  let extra := match session_id with
    | some sid => if sid ≠ "" then [("Mcp-Session-Id", sid)] else []
    | none => []
  send_http_response session_id "200 OK" "application/json" response_body (some extra)

/-- The HTML status page of `GET /` (lines 495-528). -/
def status_page (st : MCPServer) : String :=
  let tools_html := String.join (st.tools.map (fun kv =>
    "<li><strong>" ++ kv.1 ++ "</strong>: " ++
      pyStr ((match kv.2.schema with | .obj s => s.get "description" | _ => none).getD J.null) ++
      "</li>"))
  let resources_html := String.join (st.resources.map (fun kv =>
    "<li><strong>" ++ kv.1 ++ "</strong>: " ++
      pyStr ((match kv.2.schema with | .obj s => s.get "description" | _ => none).getD J.null) ++
      "</li>"))
  "<!DOCTYPE html>" ++ "<html>" ++
  "<head><title>" ++ st.server_name ++ "</title></head>" ++ "<body>" ++
  "<h1>MCP Server: " ++ st.server_name ++ "</h1>" ++
  "<p>Version: " ++ st.server_version ++ "</p>" ++
  "<p>Protocol: " ++ st.protocol_version ++ "</p>" ++
  "<p>MCP Endpoint: <code>POST /mcp</code></p>" ++
  (match st.session_id with
   | some sid => if sid ≠ "" then "<p>Session ID: <code>" ++ sid ++ "</code></p>" else ""
   | none => "") ++
  "<h2>Tools (" ++ toString st.tools.length ++ ")</h2>" ++
  (if tools_html ≠ "" then "<ul>" ++ tools_html ++ "</ul>"
   else "<p><em>No tools registered</em></p>") ++
  "<h2>Resources (" ++ toString st.resources.length ++ ")</h2>" ++
  (if resources_html ≠ "" then "<ul>" ++ resources_html ++ "</ul>"
   else "<p><em>No resources registered</em></p>") ++
  "</body>" ++ "</html>"

/-- The routing half of `_handle_request` (lines 401-531), after the request
line, headers and body have been extracted from the decoded text. `loads` is
the external `json.loads`. Returns the new state and the list of responses
written to the socket (empty = nothing was sent). -/
def route (loads : String → Except String J) (st : MCPServer)
    (method path : String) (headers : List (String × String))
    (body? : Option String) : MCPServer × List HttpResponse :=
  if method = "OPTIONS" then
    (st, [send_http_response st.session_id "204 No Content" "text/plain" "" none])
  else if method = "DELETE" ∧ path = "/mcp" then
    let session_hdr := dictGetStr headers "mcp-session-id"
    if session_hdr = st.session_id then
      ({ st with session_id := none },
       [send_http_response none "200 OK" "application/json" "\x7b\x7d" none])
    else
      (st, [send_http_response st.session_id "404 Not Found" "application/json"
              "\x7b\x22error\x22:\x22Session not found\x22\x7d" none])
  else if method = "POST" ∧ path = "/mcp" then
    match body? with
    | none => (st, [])
    | some body =>
      match loads body with
      | .error e => (st, [parse_error_response st.session_id e])
      | .ok (J.arr rs) =>
        match handleBatch st (jarrToList rs) with
        | (st1, .error e) => (st1, [parse_error_response st1.session_id e])
        | (st1, .ok resps) =>
          (st1, [post_ok_response st1.session_id (dumps (J.arr (jarr resps)))])
      | .ok jreq =>
        match handle_jsonrpc st jreq with
        | .error e => (st, [parse_error_response st.session_id e])
        | .ok (st1, none) =>
          (st1, [send_http_response st1.session_id "204 No Content" "application/json" "" none])
        | .ok (st1, some jresp) =>
          (st1, [post_ok_response st1.session_id (dumps jresp)])
  else if method = "GET" ∧ path = "/mcp" then
    (st, [send_http_response st.session_id "501 Not Implemented" "application/json"
            (dumps (J.obj (jobj [("error", J.str "GET/SSE streaming not implemented on Pico")]))) none])
  else if method = "GET" ∧ path = "/" then
    (st, [send_http_response st.session_id "200 OK" "text/html" (status_page st) none])
  else
    (st, [send_http_response st.session_id "404 Not Found" "text/plain" "Not Found" none])

-- ### Text parsing half of _handle_request (lines 376-399 and 419-421)

/-- Python `s.split(sep)` for a non-empty separator, on char lists (fueled so
that it is structurally recursive and kernel-evaluable). -/
def splitOnAux (sep : List Char) : Nat → List Char → List Char → List (List Char)
  | _, [], acc => [acc]
  | 0, s, acc => [acc ++ s]
  | fuel + 1, c :: rest, acc =>
    if sep.isPrefixOf (c :: rest) ∧ sep ≠ [] then
      acc :: splitOnAux sep fuel ((c :: rest).drop sep.length) []
    else
      splitOnAux sep fuel rest (acc ++ [c])

def pySplit (s sep : String) : List String :=
  (splitOnAux sep.data (s.data.length + 1) s.data []).map String.mk

/-- Python `sep.join(parts)`. -/
def joinSep (sep : String) : List String → String
  | [] => ""
  | [x] => x
  | x :: y :: tl => x ++ sep ++ joinSep sep (y :: tl)

def lowerChar (c : Char) : Char :=
  if 'A' ≤ c ∧ c ≤ 'Z' then Char.ofNat (c.toNat + 32) else c

/-- Python `s.lower()` (ASCII, which covers header keys). -/
def pyLower (s : String) : String := String.mk (s.data.map lowerChar)

/-- Python `s.split()` with no argument: split on whitespace runs, drop empties. -/
def pyWords (s : String) : List String :=
  ((s.data.splitOnP (fun c => c.isWhitespace)).map String.mk).filter (· ≠ "")

/-- Header parsing (lines 393-397): every line after the first — including body
lines — containing `": "` contributes `key.lower(): value` (split on the first
occurrence; later duplicates overwrite). -/
def parseHeaders (ls : List String) : List (String × String) :=
  ls.foldl (fun acc line =>
    match pySplit line ": " with
    | k :: v :: vrest => dictSet acc (pyLower k) (joinSep ": " (v :: vrest))
    | _ => acc) []

/-- Body extraction (lines 419-421): the text after the first `\r\n\r\n`,
`none` when no header terminator is present (`find` returned -1). -/
def extractBody (text : String) : Option String :=
  match pySplit text "\r\n\r\n" with
  | _ :: rest :: more => some (joinSep "\r\n\r\n" (rest :: more))
  | _ => none

/-- Request-line and header parsing of `_handle_request` (lines 376-399):
`none` means the handler returned without attempting any response (request
line with fewer than two tokens). -/
def parse_request (text : String) :
    Option (String × String × List (String × String) × Option String) :=
  let ls := pySplit text "\r\n"
  match pyWords (ls.headD "") with
  | m :: p :: _ => some (m, p, parseHeaders ls.tail, extractBody text)
  | _ => none

/-- Model of `_handle_request` on the decoded request text: parse, then route. An empty
response list means the connection was closed without any reply. -/
def handle_request (loads : String → Except String J) (st : MCPServer)
    (text : String) : MCPServer × List HttpResponse :=
  match parse_request text with
  | none => (st, [])
  | some (m, p, hdrs, body?) => route loads st m p hdrs body?

-- ### Specification-side helper vocabulary used in theorem statements

/-- A request dict whose method field equals `"initialize"`. -/
def isInitReq : J → Bool
  | .obj kvs => ((kvs.get "method").getD J.null).isStr "initialize"
  | _ => false

/-- The dispatcher inputs a `POST /mcp` body gives rise to (empty when parsing
fails or no body was found). -/
def postedRequests (loads : String → Except String J) : Option String → List J
  | none => []
  | some body =>
    match loads body with
    | .error _ => []
    | .ok (J.arr rs) => jarrToList rs
    | .ok v => [v]

/-- Keep the first occurrence of each name, preserving order of first
appearance (the key order of an insertion-ordered dict). -/
def firstKept (l : List String) : List String := (l.reverse.dedup).reverse

/-- The last registration record carrying a given name. -/
def lastRegistration (regs : List (String × String × J × (JObj → Except String J)))
    (n : String) : Option (String × String × J × (JObj → Except String J)) :=
  (regs.filter (fun r => r.1 = n)).getLast?

/-- Run a sequence of `register_tool` calls. -/
def applyRegs (st : MCPServer)
    (regs : List (String × String × J × (JObj → Except String J))) : MCPServer :=
  regs.foldl (fun s r => register_tool s r.1 r.2.1 r.2.2.1 r.2.2.2) st

/-- The registry entry a single registration record produces. -/
def mkToolEntry (r : String × String × J × (JObj → Except String J)) : ToolEntry :=
  { schema := J.obj (jobj [("name", J.str r.1), ("description", J.str r.2.1),
                           ("inputSchema", r.2.2.1)])
  , handler := r.2.2.2 }

/-- The value `_execute_tool` returns when it does not raise. -/
def toolOutcome (tools : List (String × ToolEntry)) (tool_name arguments : J) : J :=
  match execute_tool tools tool_name arguments with
  | .ok r => r
  | .error _ => J.null

/-- A `tools/call` request dict with the given params and id values. -/
def toolsCallReq (pv idv : J) : J :=
  J.obj (jobj [("method", J.str "tools/call"), ("params", pv), ("id", idv)])

/-- A `resources/read` request dict with the given params and id values. -/
def resourcesReadReq (pv idv : J) : J :=
  J.obj (jobj [("method", J.str "resources/read"), ("params", pv), ("id", idv)])

/-- An `initialize` request dict with the given id value. -/
def initReqJ (idv : J) : J :=
  J.obj (jobj [("method", J.str "initialize"), ("id", idv)])

-- ### Concrete instances used by witnesses and counterexamples

def echoHandler : JObj → Except String J :=
  fun kwargs => .ok (J.obj (jobj [("value", (kwargs.get "x").getD J.null)]))

def greetHandler : Unit → Except String J := fun _ => .ok (J.str "hello")

def baseServer : MCPServer :=
  { server_name := "pico-mcp", server_version := "1.0.0", protocol_version := "2025-03-26",
    tools := [], resources := [], session_id := none, uid_hex := "e661", ticks := [7, 8] }

def toolServer : MCPServer :=
  register_tool baseServer "echo" "Echo a value" (J.obj .nil) echoHandler

def resServer : MCPServer :=
  register_resource baseServer "res://greeting" "greeting" "A greeting" "text/plain" greetHandler

def sessionServer : MCPServer := { baseServer with session_id := some "e661-7" }

def batchBody : String :=
  "[\x7b\x22method\x22: \x22initialized\x22\x7d, \x7b\x22method\x22: \x22ping\x22, \x22id\x22: 2\x7d]"

def batchJson : J :=
  J.arr (jarr [J.obj (jobj [("method", J.str "initialized")]),
               J.obj (jobj [("method", J.str "ping"), ("id", J.num 2)])])

/-- Concrete instance of the external `json.loads` collaborator, agreeing with
Python's `json.loads` on every input it is applied to in this file: it raises
on empty or malformed input and parses the listed well-formed bodies. -/
def sampleLoads : String → Except String J := fun s =>
  if s = "" then .error "Expecting value"
  else if s = "[1]" then .ok (J.arr (jarr [J.num 1]))
  else if s = batchBody then .ok batchJson
  else if s = "[]" then .ok (J.arr .nil)
  else .error "Expecting value"

/-- The `error.code` field of a JSON-RPC response dict, when shaped like one. -/
def jsonrpcErrorCode (resp : J) : Option Int :=
  match resp with
  | .obj kvs =>
    match kvs.get "error" with
    | some (.obj ekvs) =>
      match ekvs.get "code" with
      | some (.num c) => some c
      | _ => none
    | _ => none
  | _ => none

/-- Whether a JSON-RPC response dict carries a `result` key. -/
def jsonrpcHasResult (resp : J) : Bool :=
  match resp with
  | .obj kvs => (kvs.get "result").isSome
  | _ => false

/-- A server whose next two `time.ticks_ms()` readings coincide (two calls
within the same millisecond). -/
def sameTickServer : MCPServer := { baseServer with ticks := [5, 5] }

-- ### Shared helper lemmas

theorem digitChar_inj_lt : ∀ d1 < 10, ∀ d2 < 10, Nat.digitChar d1 = Nat.digitChar d2 → d1 = d2 := by
  decide

theorem map_digitChar_inj : ∀ (l1 l2 : List Nat), (∀ d ∈ l1, d < 10) → (∀ d ∈ l2, d < 10) →
    l1.map Nat.digitChar = l2.map Nat.digitChar → l1 = l2 := by
  intro l1
  induction l1 with
  | nil => intro l2 _ _ h; cases l2 <;> simp_all
  | cons a tl ih =>
    intro l2 h1 h2 h
    cases l2 with
    | nil => simp at h
    | cons b tl2 =>
      simp only [List.map_cons, List.cons.injEq] at h
      have ha : a = b := digitChar_inj_lt a (h1 a (by simp)) b (h2 b (by simp)) h.1
      have : tl = tl2 := ih tl2 (fun d hd => h1 d (by simp [hd])) (fun d hd => h2 d (by simp [hd])) h.2
      simp [ha, this]

theorem toDigitsCore_eq_digits (fuel : Nat) : ∀ (n : Nat) (ds : List Char), n ≠ 0 → n < 10 ^ fuel →
    Nat.toDigitsCore 10 fuel n ds = ((Nat.digits 10 n).map Nat.digitChar).reverse ++ ds := by
  induction fuel with
  | zero => intro n ds h0 hlt; simp at hlt; omega
  | succ f ih =>
    intro n ds h0 hlt
    simp only [Nat.toDigitsCore]
    by_cases hdiv : n / 10 = 0
    · have hn10 : n < 10 := by omega
      rw [if_pos hdiv, Nat.digits_of_lt 10 n h0 hn10]
      simp [Nat.mod_eq_of_lt hn10]
    · rw [if_neg hdiv]
      have hlt' : n / 10 < 10 ^ f := by
        rw [Nat.div_lt_iff_lt_mul (by norm_num)]
        calc n < 10 ^ (f + 1) := hlt
        _ = 10 ^ f * 10 := by ring
      rw [ih (n / 10) (Nat.digitChar (n % 10) :: ds) hdiv hlt']
      rw [Nat.digits_def' (by norm_num : (1:Nat) < 10) (Nat.pos_of_ne_zero h0)]
      simp [List.append_assoc]

theorem self_lt_ten_pow_succ (n : Nat) : n < 10 ^ (n + 1) := by
  calc n < 2 ^ n * 1 := by simpa using Nat.lt_two_pow n
  _ ≤ 10 ^ n * 10 := Nat.mul_le_mul (Nat.pow_le_pow_left (by norm_num) n) (by norm_num)
  _ = 10 ^ (n + 1) := by ring

theorem string_data_inj {a b : String} (h : a.data = b.data) : a = b :=
  String.ext h

theorem Nat_repr_inj {m n : Nat} (h : Nat.repr m = Nat.repr n) : m = n := by
  have hd : Nat.toDigits 10 m = Nat.toDigits 10 n := congrArg String.data h
  by_cases hm : m = 0 <;> by_cases hn : n = 0
  · omega
  · exfalso
    rw [show Nat.toDigits 10 m = ['0'] from by rw [hm]; rfl,
        show Nat.toDigits 10 n = Nat.toDigitsCore 10 (n+1) n [] from rfl,
        toDigitsCore_eq_digits (n+1) n [] hn (self_lt_ten_pow_succ n)] at hd
    have hm2 : (Nat.digits 10 n).map Nat.digitChar = ['0'] := by
      have := congrArg List.reverse hd
      simpa using this.symm
    have hzero : Nat.digits 10 n = [0] := by
      apply map_digitChar_inj _ [0]
      · intro d hd2; exact Nat.digits_lt_base (by norm_num) hd2
      · intro d hd2; simp at hd2; omega
      · simpa using hm2
    have := Nat.ofDigits_digits 10 n
    rw [hzero] at this
    simp [Nat.ofDigits] at this
    omega
  · exfalso
    rw [show Nat.toDigits 10 n = ['0'] from by rw [hn]; rfl,
        show Nat.toDigits 10 m = Nat.toDigitsCore 10 (m+1) m [] from rfl,
        toDigitsCore_eq_digits (m+1) m [] hm (self_lt_ten_pow_succ m)] at hd
    have hm2 : (Nat.digits 10 m).map Nat.digitChar = ['0'] := by
      have := congrArg List.reverse hd
      simpa using this
    have hzero : Nat.digits 10 m = [0] := by
      apply map_digitChar_inj _ [0]
      · intro d hd2; exact Nat.digits_lt_base (by norm_num) hd2
      · intro d hd2; simp at hd2; omega
      · simpa using hm2
    have := Nat.ofDigits_digits 10 m
    rw [hzero] at this
    simp [Nat.ofDigits] at this
    omega
  · rw [show Nat.toDigits 10 m = Nat.toDigitsCore 10 (m+1) m [] from rfl,
        show Nat.toDigits 10 n = Nat.toDigitsCore 10 (n+1) n [] from rfl,
        toDigitsCore_eq_digits (m+1) m [] hm (self_lt_ten_pow_succ m),
        toDigitsCore_eq_digits (n+1) n [] hn (self_lt_ten_pow_succ n)] at hd
    simp only [List.append_nil] at hd
    have hmap := congrArg List.reverse hd
    simp only [List.reverse_reverse] at hmap
    have hdig : Nat.digits 10 m = Nat.digits 10 n := by
      apply map_digitChar_inj _ _ _ _ hmap
      · intro d hd2; exact Nat.digits_lt_base (by norm_num) hd2
      · intro d hd2; exact Nat.digits_lt_base (by norm_num) hd2
    exact Nat.digits.injective 10 hdig

theorem new_session_id_inj {st1 st2 : MCPServer} (huid : st1.uid_hex = st2.uid_hex)
    (ht : st1.ticks.headD 0 ≠ st2.ticks.headD 0) :
    new_session_id st1 ≠ new_session_id st2 := by
  intro h
  apply ht
  unfold new_session_id at h
  rw [huid] at h
  have hdata := congrArg String.data h
  simp only [String.data_append] at hdata
  have := List.append_cancel_left hdata
  exact Nat_repr_inj (string_data_inj this)

-- ### Claim C1

/-- Claim C1 (amended form): on `DELETE /mcp` the header value is compared to
the session slot with Python `==`; equality (including `None == None`, when no
session exists and no header was sent) clears the slot and replies `200 OK`
with an empty JSON object, inequality leaves the state untouched and replies
`404 Not Found` with the JSON error body. The original claim's "absence of a
current session token means the reply is always 404" is refuted by
`C1_counterexample`. -/
theorem C1_delete_route (loads : String → Except String J) (st : MCPServer)
    (hdrs : List (String × String)) (body? : Option String) :
    route loads st "DELETE" "/mcp" hdrs body? =
      if dictGetStr hdrs "mcp-session-id" = st.session_id then
        ({ st with session_id := none },
         [send_http_response none "200 OK" "application/json" "\x7b\x7d" none])
      else
        (st, [send_http_response st.session_id "404 Not Found" "application/json"
                "\x7b\x22error\x22:\x22Session not found\x22\x7d" none]) := by
  unfold route
  rw [if_neg (by decide : ¬("DELETE" = "OPTIONS"))]
  rw [if_pos (⟨rfl, rfl⟩ : "DELETE" = "DELETE" ∧ "/mcp" = "/mcp")]

/-- Claim C1 counterexample: with no current session and no `Mcp-Session-Id`
header, `DELETE /mcp` replies `200 OK` (Python `None == None`), not 404 as the
claim states. -/
theorem C1_counterexample :
    (let r := handle_request sampleLoads baseServer "DELETE /mcp HTTP/1.1\r\nHost: pico\r\n\r\n"
     (r.1.session_id, r.2.map (fun resp => resp.status))) = (none, ["200 OK"]) := by
  decide

-- ### Claim C2

/-- Claim C2 (amended form): the request a `POST /mcp` drops without any HTTP
response is the one whose decoded text contains no header terminator
(`request.find` returned -1), and the state is untouched; a POST whose body is
present but empty is parsed by `json.loads`, which raises, producing a
`400 Bad Request` with the `-32700` parse-error body. The original claim's
"empty body text is dropped with no response" is refuted by
`C2_counterexample`. -/
theorem C2_post_empty (loads : String → Except String J) :
    (∀ (st : MCPServer) (hdrs : List (String × String)),
      route loads st "POST" "/mcp" hdrs none = (st, [])) ∧
    (∀ (st : MCPServer) (hdrs : List (String × String)) (e : String),
      loads "" = .error e →
      route loads st "POST" "/mcp" hdrs (some "") =
        (st, [parse_error_response st.session_id e])) := by
  constructor
  · intro st hdrs
    unfold route
    rw [if_neg (by decide : ¬("POST" = "OPTIONS"))]
    rw [if_neg (by decide : ¬("POST" = "DELETE" ∧ "/mcp" = "/mcp"))]
    rw [if_pos (⟨rfl, rfl⟩ : "POST" = "POST" ∧ "/mcp" = "/mcp")]
  · intro st hdrs e h
    unfold route
    rw [if_neg (by decide : ¬("POST" = "OPTIONS"))]
    rw [if_neg (by decide : ¬("POST" = "DELETE" ∧ "/mcp" = "/mcp"))]
    rw [if_pos (⟨rfl, rfl⟩ : "POST" = "POST" ∧ "/mcp" = "/mcp")]
    simp only [h]

/-- Claim C2 witness: the amended behavior at a concrete instance — an
empty-but-present body replies 400. -/
theorem C2_witness :
    route sampleLoads baseServer "POST" "/mcp" [("content-length", "0")] (some "") =
      (baseServer, [parse_error_response none "Expecting value"]) :=
  (C2_post_empty sampleLoads).2 baseServer [("content-length", "0")] "Expecting value" rfl

/-- Claim C2 counterexample: a complete `POST /mcp` frame with an empty body
gets a `400 Bad Request` reply, not the claimed absence of any response. -/
theorem C2_counterexample :
    (handle_request sampleLoads baseServer
      "POST /mcp HTTP/1.1\r\nContent-Length: 0\r\n\r\n").2.map (fun resp => resp.status) =
      ["400 Bad Request"] := by
  decide

-- ### Claim C3

/-- Claim C3 (amended form): a `tools/call` whose params value is a dict always
dispatches to `_execute_tool`; whenever that call returns (which includes the
unregistered-tool case and a raising handler, both reported as error-shaped
data), the response is a normal result wrapping exactly one `text` content item
holding the JSON serialization of the returned value, never a JSON-RPC error;
`_execute_tool` raises only for an unhashable (list/dict) name, and that case —
like a non-dict params value — is converted to a JSON-RPC `-32603` error
response. The original "never produces a JSON-RPC error object" is refuted by
`C3_counterexample`. -/
theorem C3_tools_call (st : MCPServer) (pv idv : J) :
    (handle_jsonrpc st (toolsCallReq pv idv) =
      match pv with
      | .obj pkvs =>
        match execute_tool st.tools ((pkvs.get "name").getD J.null)
              ((pkvs.get "arguments").getD (J.obj .nil)) with
        | .ok result =>
          .ok (st, some (rpcResult idv (J.obj (jobj
            [("content", J.arr (jarr [J.obj (jobj
              [("type", J.str "text"), ("text", J.str (dumps result))])]))]))))
        | .error e =>
          .ok (st, some (rpcError idv (-32603) ("Internal error: " ++ e)))
      | _ =>
        .ok (st, some (rpcError idv (-32603)
          "Internal error: AttributeError: object has no attribute get"))) ∧
    (∀ (nm args : J), pyHashable nm = true →
      ∃ r, execute_tool st.tools nm args = Except.ok r) := by
  constructor
  · cases pv with
    | obj pkvs =>
      show handle_jsonrpc st (toolsCallReq (J.obj pkvs) idv) = _
      unfold handle_jsonrpc handle_jsonrpc_inner toolsCallReq
      rcases h : execute_tool st.tools ((pkvs.get "name").getD J.null)
          ((pkvs.get "arguments").getD (J.obj .nil)) with e | result
      · simp [pyDictGet, h, jobj, JObj.get, J.isStr]
      · simp [pyDictGet, h, jobj, JObj.get, J.isStr]
    | null => rfl
    | bool b => cases b <;> rfl
    | num n => rfl
    | str s => rfl
    | arr xs => rfl
  · intro nm args h
    cases nm with
    | null => exact ⟨_, rfl⟩
    | bool b => exact ⟨_, rfl⟩
    | num n => exact ⟨_, rfl⟩
    | str s =>
      rcases hfind : dictFind st.tools (J.str s) with _ | entry
      · refine ⟨J.obj (jobj [("error", J.str ("Tool not found: " ++ pyStr (J.str s)))]), ?_⟩
        unfold execute_tool
        simp [hfind]
      · cases args with
        | obj kwargs =>
          rcases hh : entry.handler kwargs with e | r
          · refine ⟨J.obj (jobj [("error", J.str ("Tool execution failed: " ++ e))]), ?_⟩
            unfold execute_tool
            simp [hfind, hh]
          · refine ⟨r, ?_⟩
            unfold execute_tool
            simp [hfind, hh]
        | null =>
          refine ⟨J.obj (jobj [("error",
            J.str "Tool execution failed: argument after ** must be a mapping")]), ?_⟩
          unfold execute_tool
          simp [hfind]
        | bool b =>
          refine ⟨J.obj (jobj [("error",
            J.str "Tool execution failed: argument after ** must be a mapping")]), ?_⟩
          unfold execute_tool
          simp [hfind]
        | num n =>
          refine ⟨J.obj (jobj [("error",
            J.str "Tool execution failed: argument after ** must be a mapping")]), ?_⟩
          unfold execute_tool
          simp [hfind]
        | str s2 =>
          refine ⟨J.obj (jobj [("error",
            J.str "Tool execution failed: argument after ** must be a mapping")]), ?_⟩
          unfold execute_tool
          simp [hfind]
        | arr xs =>
          refine ⟨J.obj (jobj [("error",
            J.str "Tool execution failed: argument after ** must be a mapping")]), ?_⟩
          unfold execute_tool
          simp [hfind]
    | arr xs => simp [pyHashable] at h
    | obj kvs => simp [pyHashable] at h

/-- Claim C3 counterexample: a `tools/call` request whose params value is not a
dict yields a JSON-RPC error response (code `-32603`, no result key), refuting
"a tools/call never produces a JSON-RPC error object". -/
theorem C3_counterexample :
    (match handle_jsonrpc baseServer (toolsCallReq (J.num 5) (J.num 1)) with
     | .ok (_, some resp) => (jsonrpcErrorCode resp, jsonrpcHasResult resp)
     | _ => (none, true)) = (some (-32603), false) := by
  decide

-- ### Claim C4

/-- Claim C4 (code bug): the catch-all except clause of `_handle_jsonrpc` is
meant to convert any exception into a `-32603` response and it does so for
every dict request (second conjunct) — but it evaluates `request.get("id")`,
which itself raises when the request is not a dict, so there the exception
escapes the dispatcher (first conjunct, at the failing input `1`). -/
theorem C4_dispatch_escape :
    handle_jsonrpc baseServer (J.num 1) =
      .error "AttributeError: object has no attribute get" ∧
    ∀ (st : MCPServer) (kvs : JObj), ∃ st1 r, handle_jsonrpc st (J.obj kvs) = .ok (st1, r) := by
  constructor
  · rfl
  · intro st kvs
    unfold handle_jsonrpc
    rcases h : handle_jsonrpc_inner st (J.obj kvs) with e | pr
    · exact ⟨st, _, rfl⟩
    · exact ⟨pr.1, pr.2, rfl⟩

-- ### Shared routing lemmas

theorem dispatch_obj_ok (st : MCPServer) (kvs : JObj) :
    ∃ st1 r, handle_jsonrpc st (J.obj kvs) = .ok (st1, r) := by
  unfold handle_jsonrpc
  rcases h : handle_jsonrpc_inner st (J.obj kvs) with e | pr
  · exact ⟨st, _, rfl⟩
  · exact ⟨pr.1, pr.2, rfl⟩

theorem route_post_eq (loads : String → Except String J) (st : MCPServer)
    (hdrs : List (String × String)) (body? : Option String) :
    route loads st "POST" "/mcp" hdrs body? =
      match body? with
      | none => (st, [])
      | some body =>
        match loads body with
        | .error e => (st, [parse_error_response st.session_id e])
        | .ok (J.arr rs) =>
          match handleBatch st (jarrToList rs) with
          | (st1, .error e) => (st1, [parse_error_response st1.session_id e])
          | (st1, .ok resps) =>
            (st1, [post_ok_response st1.session_id (dumps (J.arr (jarr resps)))])
        | .ok jreq =>
          match handle_jsonrpc st jreq with
          | .error e => (st, [parse_error_response st.session_id e])
          | .ok (st1, none) =>
            (st1, [send_http_response st1.session_id "204 No Content" "application/json" "" none])
          | .ok (st1, some jresp) =>
            (st1, [post_ok_response st1.session_id (dumps jresp)]) := by
  unfold route
  rw [if_neg (by decide : ¬("POST" = "OPTIONS"))]
  rw [if_neg (by decide : ¬("POST" = "DELETE" ∧ "/mcp" = "/mcp"))]
  rw [if_pos (⟨rfl, rfl⟩ : "POST" = "POST" ∧ "/mcp" = "/mcp")]

theorem route_delete_eq (loads : String → Except String J) (st : MCPServer)
    (hdrs : List (String × String)) (body? : Option String) :
    route loads st "DELETE" "/mcp" hdrs body? =
      if dictGetStr hdrs "mcp-session-id" = st.session_id then
        ({ st with session_id := none },
         [send_http_response none "200 OK" "application/json" "\x7b\x7d" none])
      else
        (st, [send_http_response st.session_id "404 Not Found" "application/json"
                "\x7b\x22error\x22:\x22Session not found\x22\x7d" none]) := by
  unfold route
  rw [if_neg (by decide : ¬("DELETE" = "OPTIONS"))]
  rw [if_pos (⟨rfl, rfl⟩ : "DELETE" = "DELETE" ∧ "/mcp" = "/mcp")]

theorem route_delete_404 (loads : String → Except String J) (st : MCPServer)
    (hdrs : List (String × String)) (body? : Option String)
    (h : dictGetStr hdrs "mcp-session-id" ≠ st.session_id) :
    route loads st "DELETE" "/mcp" hdrs body? =
      (st, [send_http_response st.session_id "404 Not Found" "application/json"
              "\x7b\x22error\x22:\x22Session not found\x22\x7d" none]) := by
  rw [route_delete_eq, if_neg h]

theorem handleBatch_ok_of_objs :
    ∀ (l : List J), (∀ r ∈ l, ∃ kvs, r = J.obj kvs) →
    ∀ st, ∃ st1 resps, handleBatch st l = (st1, Except.ok resps) := by
  intro l
  induction l with
  | nil => intro _ st; exact ⟨st, [], rfl⟩
  | cons r rest ih =>
    intro h st
    obtain ⟨kvs, rfl⟩ := h r (by simp)
    obtain ⟨st1, resp, hd⟩ := dispatch_obj_ok st kvs
    obtain ⟨st2, resps, hb⟩ := ih (fun x hx => h x (by simp [hx])) st1
    refine ⟨st2, (match resp with
                  | some v => if pyTruthy v then v :: resps else resps
                  | none => resps), ?_⟩
    simp only [handleBatch, hd, hb]
    cases resp <;> rfl

-- ### Claim C5

/-- Claim C5 (amended form): a `POST /mcp` body parsing as a JSON sequence all
of whose elements are dicts is processed as a batch — the dispatcher runs on
each element in order, truthy (non-null) responses are collected (notifications
dropped), and the reply is `200 OK` carrying the serialized collection, even
when empty. When some element is not a dict, the dispatcher raises on it (see
C4) and the whole request is answered `400 Bad Request` instead, refuting the
claim's unqualified "the reply is 200 OK"; see `C5_counterexample`. -/
theorem C5_batch_route (loads : String → Except String J) (st : MCPServer)
    (hdrs : List (String × String)) (body : String) (rs : JArr)
    (hparse : loads body = .ok (J.arr rs))
    (hobjs : ∀ r ∈ jarrToList rs, ∃ kvs, r = J.obj kvs) :
    ∃ st1 resps, handleBatch st (jarrToList rs) = (st1, Except.ok resps) ∧
      route loads st "POST" "/mcp" hdrs (some body) =
        (st1, [post_ok_response st1.session_id (dumps (J.arr (jarr resps)))]) := by
  obtain ⟨st1, resps, hb⟩ := handleBatch_ok_of_objs (jarrToList rs) hobjs st
  refine ⟨st1, resps, hb, ?_⟩
  rw [route_post_eq]
  simp only [hparse, hb]

/-- Claim C5 witness: the batch `[initialized, ping]` is answered `200 OK` with
a single collected response, the ping result. -/
theorem C5_witness :
    (∃ st1 resps,
       handleBatch baseServer (jarrToList (jarr
         [J.obj (jobj [("method", J.str "initialized")]),
          J.obj (jobj [("method", J.str "ping"), ("id", J.num 2)])])) =
         (st1, Except.ok resps) ∧
       route sampleLoads baseServer "POST" "/mcp" [] (some batchBody) =
         (st1, [post_ok_response st1.session_id (dumps (J.arr (jarr resps)))])) ∧
    (handle_request sampleLoads baseServer
        ("POST /mcp HTTP/1.1\r\n\r\n" ++ batchBody)).2.map
          (fun r => (r.status, r.body)) =
      [("200 OK", dumps (J.arr (jarr [rpcResult (J.num 2) (J.obj .nil)])))] := by
  constructor
  · exact C5_batch_route sampleLoads baseServer [] batchBody
      (jarr [J.obj (jobj [("method", J.str "initialized")]),
             J.obj (jobj [("method", J.str "ping"), ("id", J.num 2)])])
      rfl
      (by intro r hr
          simp only [jarr, jarrToList, List.mem_cons, List.not_mem_nil, or_false] at hr
          rcases hr with rfl | rfl
          · exact ⟨_, rfl⟩
          · exact ⟨_, rfl⟩)
  · decide

/-- Claim C5 counterexample: the body `[1]` parses as a JSON sequence, yet the
reply is `400 Bad Request`, not `200 OK` with a collected sequence. -/
theorem C5_counterexample :
    (handle_request sampleLoads baseServer
      "POST /mcp HTTP/1.1\r\n\r\n[1]").2.map (fun r => r.status) = ["400 Bad Request"] := by
  decide

theorem repr_append_ne (uid : String) {t1 t2 : Nat} (h : t1 ≠ t2) :
    uid ++ "-" ++ Nat.repr t1 ≠ uid ++ "-" ++ Nat.repr t2 := by
  intro he
  apply h
  have hdata := congrArg String.data he
  simp only [String.data_append] at hdata
  exact Nat_repr_inj (string_data_inj (List.append_cancel_left hdata))

-- ### Claim C6

/-- Claim C6 (amended form): two consecutive `initialize` calls mint the tokens
`uid-t1` and `uid-t2` from the two `time.ticks_ms()` readings; whenever the two
readings differ the tokens differ, the session slot afterwards holds only the
second token, and a `DELETE /mcp` presenting the first token is refused with
404, leaving the session unchanged. When the two readings coincide (both calls
within the same millisecond) the tokens are identical, refuting the claim's
unconditional "two different session tokens"; see `C6_counterexample`. -/
theorem C6_two_inits (st : MCPServer) (t1 t2 : Nat) (rest : List Nat) (idv1 idv2 : J)
    (hticks : st.ticks = t1 :: t2 :: rest) (hne : t1 ≠ t2) :
    ∃ st1 st2 r1 r2,
      handle_jsonrpc st (initReqJ idv1) = .ok (st1, some r1) ∧
      handle_jsonrpc st1 (initReqJ idv2) = .ok (st2, some r2) ∧
      st1.session_id = some (st.uid_hex ++ "-" ++ Nat.repr t1) ∧
      st2.session_id = some (st.uid_hex ++ "-" ++ Nat.repr t2) ∧
      st1.session_id ≠ st2.session_id ∧
      (∀ (loads : String → Except String J) (body? : Option String),
        route loads st2 "DELETE" "/mcp"
            [("mcp-session-id", st.uid_hex ++ "-" ++ Nat.repr t1)] body? =
          (st2, [send_http_response st2.session_id "404 Not Found" "application/json"
                  "\x7b\x22error\x22:\x22Session not found\x22\x7d" none])) := by
  cases st with
  | mk nm vr pv tls rsc sid uid tk =>
    obtain rfl : tk = t1 :: t2 :: rest := hticks
    refine ⟨_, _, _, _, rfl, rfl, rfl, rfl, ?_, ?_⟩
    · intro he
      exact repr_append_ne uid hne (Option.some.inj
        (show some (uid ++ "-" ++ Nat.repr t1) = some (uid ++ "-" ++ Nat.repr t2) from he))
    · intro loads body?
      exact route_delete_404 loads _ _ body? (fun he => repr_append_ne uid hne (Option.some.inj
        (show some (uid ++ "-" ++ Nat.repr t1) = some (uid ++ "-" ++ Nat.repr t2) from he)))

/-- Claim C6 witness: with distinct tick readings 7 and 8 the amended
statement holds at `baseServer`. -/
theorem C6_witness :
    ∃ st1 st2 r1 r2,
      handle_jsonrpc baseServer (initReqJ (J.num 1)) = .ok (st1, some r1) ∧
      handle_jsonrpc st1 (initReqJ (J.num 2)) = .ok (st2, some r2) ∧
      st1.session_id = some (baseServer.uid_hex ++ "-" ++ Nat.repr 7) ∧
      st2.session_id = some (baseServer.uid_hex ++ "-" ++ Nat.repr 8) ∧
      st1.session_id ≠ st2.session_id ∧
      (∀ (loads : String → Except String J) (body? : Option String),
        route loads st2 "DELETE" "/mcp"
            [("mcp-session-id", baseServer.uid_hex ++ "-" ++ Nat.repr 7)] body? =
          (st2, [send_http_response st2.session_id "404 Not Found" "application/json"
                  "\x7b\x22error\x22:\x22Session not found\x22\x7d" none])) :=
  C6_two_inits baseServer 7 8 [] (J.num 1) (J.num 2) rfl (by decide)

/-- Claim C6 counterexample: when the two `time.ticks_ms()` readings coincide,
two consecutive `initialize` calls produce the identical token `e661-5`. -/
theorem C6_counterexample :
    (match handle_jsonrpc sameTickServer (initReqJ (J.num 1)) with
     | .ok (st1, _) =>
       (st1.session_id,
        match handle_jsonrpc st1 (initReqJ (J.num 2)) with
        | .ok (st2, _) => st2.session_id
        | .error _ => none)
     | .error _ => (none, none)) = (some "e661-5", some "e661-5") := by
  decide

-- ### Registry lemmas (dict insertion semantics)

theorem dictSet_keys {α : Type} (d : List (String × α)) (k : String) (v : α) :
    (dictSet d k v).map Prod.fst =
      if k ∈ d.map Prod.fst then d.map Prod.fst else d.map Prod.fst ++ [k] := by
  induction d with
  | nil => simp [dictSet]
  | cons hd tl ih =>
    obtain ⟨k', w⟩ := hd
    by_cases hk : k' = k
    · subst hk; simp [dictSet]
    · have hk2 : ¬(k = k') := fun h => hk h.symm
      simp only [dictSet, if_neg hk, List.map_cons]
      rw [ih]
      by_cases hmem : k ∈ tl.map Prod.fst
      · simp [hmem, hk2]
      · simp [hmem, hk2]

theorem dictGetStr_dictSet_self {α : Type} (d : List (String × α)) (k : String) (v : α) :
    dictGetStr (dictSet d k v) k = some v := by
  induction d with
  | nil => simp [dictSet, dictGetStr]
  | cons hd tl ih =>
    obtain ⟨k', w⟩ := hd
    by_cases hk : k' = k
    · subst hk; simp [dictSet, dictGetStr]
    · simp [dictSet, dictGetStr, hk, ih]

theorem dictGetStr_dictSet_ne {α : Type} (d : List (String × α)) (k k' : String) (v : α)
    (h : k' ≠ k) : dictGetStr (dictSet d k v) k' = dictGetStr d k' := by
  have h2 : ¬(k = k') := fun hh => h hh.symm
  induction d with
  | nil => simp [dictSet, dictGetStr, h2]
  | cons hd tl ih =>
    obtain ⟨k2, w⟩ := hd
    by_cases hk : k2 = k
    · subst hk; simp [dictSet, dictGetStr, h2]
    · simp [dictSet, dictGetStr, hk, ih]

theorem mem_firstKept (x : String) (l : List String) : x ∈ firstKept l ↔ x ∈ l := by
  simp [firstKept, List.mem_reverse, List.mem_dedup]

theorem firstKept_append (l : List String) (x : String) :
    firstKept (l ++ [x]) = if x ∈ l then firstKept l else firstKept l ++ [x] := by
  unfold firstKept
  rw [List.reverse_append]
  simp only [List.reverse_cons, List.reverse_nil, List.nil_append, List.singleton_append]
  by_cases hx : x ∈ l
  · rw [List.dedup_cons_of_mem (by simpa using hx)]
    simp [hx]
  · rw [List.dedup_cons_of_not_mem (by simpa using hx)]
    simp [hx, List.reverse_cons]

theorem lastRegistration_append (regs : List (String × String × J × (JObj → Except String J)))
    (r : String × String × J × (JObj → Except String J)) (n : String) :
    lastRegistration (regs ++ [r]) n =
      if r.1 = n then some r else lastRegistration regs n := by
  unfold lastRegistration
  rw [List.filter_append]
  by_cases h : r.1 = n
  · simp [h, List.getLast?_concat]
  · simp [h]

theorem applyRegs_append (st : MCPServer)
    (regs : List (String × String × J × (JObj → Except String J)))
    (r : String × String × J × (JObj → Except String J)) :
    applyRegs st (regs ++ [r]) =
      register_tool (applyRegs st regs) r.1 r.2.1 r.2.2.1 r.2.2.2 := by
  simp [applyRegs, List.foldl_append]

theorem applyRegs_keys (base : MCPServer) (hbase : base.tools = [])
    (regs : List (String × String × J × (JObj → Except String J))) :
    (applyRegs base regs).tools.map Prod.fst = firstKept (regs.map Prod.fst) := by
  induction regs using List.reverseRecOn with
  | nil => simp [applyRegs, hbase, firstKept]
  | append_singleton l r ih =>
    rw [applyRegs_append]
    simp only [register_tool]
    rw [dictSet_keys, ih, List.map_append, List.map_cons, List.map_nil, firstKept_append]
    by_cases hm : r.1 ∈ l.map Prod.fst
    · rw [if_pos ((mem_firstKept _ _).mpr hm), if_pos hm]
    · rw [if_neg (fun hh => hm ((mem_firstKept _ _).mp hh)), if_neg hm]

theorem applyRegs_values (base : MCPServer) (hbase : base.tools = [])
    (regs : List (String × String × J × (JObj → Except String J))) (n : String) :
    dictGetStr (applyRegs base regs).tools n = (lastRegistration regs n).map mkToolEntry := by
  induction regs using List.reverseRecOn with
  | nil => simp [applyRegs, hbase, lastRegistration, dictGetStr]
  | append_singleton l r ih =>
    rw [applyRegs_append, lastRegistration_append]
    simp only [register_tool]
    by_cases h : r.1 = n
    · subst h
      rw [dictGetStr_dictSet_self]
      simp [mkToolEntry]
    · rw [dictGetStr_dictSet_ne _ _ _ _ (fun hh => h hh.symm), ih]
      simp [h]

-- ### Claim C7

/-- Claim C7 (confirmed): running any sequence of tool registrations from an
empty registry yields exactly one entry per registered name (the key list is
duplicate-free), keys appear in order of first registration, each name's entry
is the one from its last registration (replacement, not duplication), and the
`tools/list` response lists exactly the stored schemas in that key order. -/
theorem C7_registration (st0 : MCPServer)
    (regs : List (String × String × J × (JObj → Except String J))) (idv : J) :
    ((applyRegs { st0 with tools := [] } regs).tools.map Prod.fst =
        firstKept (regs.map Prod.fst)) ∧
    ((applyRegs { st0 with tools := [] } regs).tools.map Prod.fst).Nodup ∧
    (∀ n, dictGetStr (applyRegs { st0 with tools := [] } regs).tools n =
        (lastRegistration regs n).map mkToolEntry) ∧
    (handle_jsonrpc (applyRegs { st0 with tools := [] } regs)
        (J.obj (jobj [("method", J.str "tools/list"), ("id", idv)])) =
      .ok (applyRegs { st0 with tools := [] } regs,
        some (rpcResult idv (J.obj (jobj [("tools",
          J.arr (jarr ((applyRegs { st0 with tools := [] } regs).tools.map
            (fun kv => kv.2.schema))))]))))) := by
  refine ⟨applyRegs_keys _ rfl regs, ?_, applyRegs_values _ rfl regs, rfl⟩
  rw [applyRegs_keys _ rfl regs]
  simp [firstKept, List.nodup_dedup]

-- ### Resource execution lemmas

theorem dictFind_some_str {α : Type} (d : List (String × α)) (uri : J) (entry : α)
    (h : dictFind d uri = some entry) : ∃ s, uri = J.str s := by
  cases uri with
  | str s => exact ⟨s, rfl⟩
  | null => simp [dictFind] at h
  | bool b => simp [dictFind] at h
  | num n => simp [dictFind] at h
  | arr xs => simp [dictFind] at h
  | obj kvs => simp [dictFind] at h

theorem execute_resource_not_found (resources : List (String × ResourceEntry)) (uri : J)
    (hhash : pyHashable uri = true) (hfind : dictFind resources uri = none) :
    execute_resource resources uri =
      .ok (jobj [("error", J.str ("Resource not found: " ++ pyStr uri))]) := by
  cases uri with
  | arr xs => simp [pyHashable] at hhash
  | obj kvs => simp [pyHashable] at hhash
  | null => rfl
  | bool b => cases b <;> rfl
  | num n => rfl
  | str s =>
    simp only [dictFind] at hfind
    unfold execute_resource
    simp [dictFind, hfind]

theorem execute_resource_handler_err (resources : List (String × ResourceEntry)) (uri : J)
    (entry : ResourceEntry) (e : String) (hfind : dictFind resources uri = some entry)
    (hh : entry.handler () = .error e) :
    execute_resource resources uri =
      .ok (jobj [("error", J.str ("Resource fetch failed: " ++ e))]) := by
  obtain ⟨s, rfl⟩ := dictFind_some_str _ _ _ hfind
  simp only [dictFind] at hfind
  unfold execute_resource
  simp [dictFind, hfind, hh]

theorem execute_resource_success (resources : List (String × ResourceEntry)) (uri : J)
    (entry : ResourceEntry) (content : J) (skvs : JObj) (mv : J)
    (hfind : dictFind resources uri = some entry) (hh : entry.handler () = .ok content)
    (hs : entry.schema = J.obj skvs) (hm : skvs.get "mimeType" = some mv) :
    execute_resource resources uri = .ok (jobj [("content", content), ("mimeType", mv)]) := by
  obtain ⟨s, rfl⟩ := dictFind_some_str _ _ _ hfind
  simp only [dictFind] at hfind
  unfold execute_resource
  simp [dictFind, hfind, hh, hs, hm]

-- ### Claim C8

/-- Claim C8 (confirmed): for a `resources/read` request (params a dict, the
extracted uri value hashable), an unregistered uri or a raising handler yields
a JSON-RPC error response with code `-32602` carrying the lookup or fetch
failure message, while a successful handler yields a result with exactly one
contents entry carrying the uri, the registered mimeType and the handler's
content as the text field. -/
theorem C8_resources_read (st : MCPServer) (pkvs : JObj) (idv uri : J)
    (huri : (pkvs.get "uri").getD J.null = uri)
    (hhash : pyHashable uri = true) :
    (dictFind st.resources uri = none →
      handle_jsonrpc st (resourcesReadReq (J.obj pkvs) idv) =
        .ok (st, some (J.obj (jobj [("jsonrpc", J.str "2.0"), ("id", idv),
          ("error", J.obj (jobj [("code", J.num (-32602)),
            ("message", J.str ("Resource not found: " ++ pyStr uri))]))])))) ∧
    (∀ entry e, dictFind st.resources uri = some entry → entry.handler () = .error e →
      handle_jsonrpc st (resourcesReadReq (J.obj pkvs) idv) =
        .ok (st, some (J.obj (jobj [("jsonrpc", J.str "2.0"), ("id", idv),
          ("error", J.obj (jobj [("code", J.num (-32602)),
            ("message", J.str ("Resource fetch failed: " ++ e))]))])))) ∧
    (∀ entry content skvs mv, dictFind st.resources uri = some entry →
      entry.handler () = .ok content → entry.schema = J.obj skvs →
      skvs.get "mimeType" = some mv →
      handle_jsonrpc st (resourcesReadReq (J.obj pkvs) idv) =
        .ok (st, some (rpcResult idv (J.obj (jobj [("contents", J.arr (jarr
          [J.obj (jobj [("uri", uri), ("mimeType", mv), ("text", content)])]))]))))) := by
  have hred : ∀ result, execute_resource st.resources uri = .ok result →
      handle_jsonrpc st (resourcesReadReq (J.obj pkvs) idv) =
        (match result.get "error" with
         | some emsg => .ok (st, some (J.obj (jobj [("jsonrpc", J.str "2.0"), ("id", idv),
             ("error", J.obj (jobj [("code", J.num (-32602)), ("message", emsg)]))])))
         | none =>
           match result.get "mimeType", result.get "content" with
           | some mv, some cv => .ok (st, some (rpcResult idv (J.obj (jobj
               [("contents", J.arr (jarr [J.obj (jobj
                 [("uri", uri), ("mimeType", mv), ("text", cv)])]))]))))
           | _, _ => .ok (st, some (rpcError idv (-32603) "Internal error: KeyError"))) := by
    subst huri
    intro result hx
    unfold handle_jsonrpc handle_jsonrpc_inner resourcesReadReq
    rcases hge : result.get "error" with _ | emsg
    · rcases hmt : result.get "mimeType" with _ | mv <;>
        rcases hct : result.get "content" with _ | cv <;>
          simp [pyDictGet, hx, hge, hmt, hct, jobj, JObj.get, J.isStr]
    · simp [pyDictGet, hx, hge, jobj, JObj.get, J.isStr]
  refine ⟨?_, ?_, ?_⟩
  · intro hfind
    rw [hred _ (execute_resource_not_found st.resources uri hhash hfind)]
    simp [jobj, JObj.get]
  · intro entry e hfind hh
    rw [hred _ (execute_resource_handler_err st.resources uri entry e hfind hh)]
    simp [jobj, JObj.get]
  · intro entry content skvs mv hfind hh hs hm
    rw [hred _ (execute_resource_success st.resources uri entry content skvs mv hfind hh hs hm)]
    simp [jobj, JObj.get]

/-- Claim C8 witness: on the concrete resource server, an unregistered uri
gets the `-32602` error and the registered uri gets the single contents entry
with uri, mimeType and text. -/
theorem C8_witness :
    (handle_jsonrpc resServer
        (resourcesReadReq (J.obj (jobj [("uri", J.str "nope")])) (J.num 3)) =
      .ok (resServer, some (J.obj (jobj [("jsonrpc", J.str "2.0"), ("id", J.num 3),
        ("error", J.obj (jobj [("code", J.num (-32602)),
          ("message", J.str "Resource not found: nope")]))])))) ∧
    (handle_jsonrpc resServer
        (resourcesReadReq (J.obj (jobj [("uri", J.str "res://greeting")])) (J.num 4)) =
      .ok (resServer, some (rpcResult (J.num 4) (J.obj (jobj [("contents", J.arr (jarr
        [J.obj (jobj [("uri", J.str "res://greeting"), ("mimeType", J.str "text/plain"),
                      ("text", J.str "hello")])]))]))))) := by
  constructor
  · exact (C8_resources_read resServer (jobj [("uri", J.str "nope")]) (J.num 3)
      (J.str "nope") rfl rfl).1 rfl
  · exact (C8_resources_read resServer (jobj [("uri", J.str "res://greeting")]) (J.num 4)
      (J.str "res://greeting") rfl rfl).2.2
      { schema := J.obj (jobj [("uri", J.str "res://greeting"), ("name", J.str "greeting"),
                               ("description", J.str "A greeting"),
                               ("mimeType", J.str "text/plain")])
      , handler := greetHandler }
      (J.str "hello")
      (jobj [("uri", J.str "res://greeting"), ("name", J.str "greeting"),
             ("description", J.str "A greeting"), ("mimeType", J.str "text/plain")])
      (J.str "text/plain") rfl rfl rfl rfl

-- ### Session-state lemmas

theorem inner_state (st : MCPServer) (kvs : JObj) (st1 : MCPServer) (o : Option J)
    (h : handle_jsonrpc_inner st (J.obj kvs) = .ok (st1, o)) :
    st1 = st ∨ (((kvs.get "method").getD J.null).isStr "initialize" = true ∧
      st1 = { st with session_id := some (new_session_id st), ticks := st.ticks.tail }) := by
  simp only [handle_jsonrpc_inner] at h
  by_cases hm : ((kvs.get "method").getD J.null).isStr "initialize" = true
  · rw [if_pos hm] at h
    simp only [Except.ok.injEq, Prod.mk.injEq] at h
    exact Or.inr ⟨hm, h.1.symm⟩
  · rw [if_neg hm] at h
    left
    repeat' split at h
    all_goals first
      | (simp only [Except.ok.injEq, Prod.mk.injEq] at h; exact h.1.symm)
      | simp at h

theorem dispatch_state (st : MCPServer) (r : J) (st1 : MCPServer) (o : Option J)
    (h : handle_jsonrpc st r = .ok (st1, o)) :
    st1 = st ∨ (isInitReq r = true ∧
      st1 = { st with session_id := some (new_session_id st), ticks := st.ticks.tail }) := by
  cases r with
  | obj kvs =>
    unfold handle_jsonrpc at h
    rcases hi : handle_jsonrpc_inner st (J.obj kvs) with e | pr
    · rw [hi] at h
      simp only [Except.ok.injEq, Prod.mk.injEq] at h
      exact Or.inl h.1.symm
    · rw [hi] at h
      obtain ⟨st2, o2⟩ := pr
      simp only [Except.ok.injEq, Prod.mk.injEq] at h
      obtain ⟨h1, h2⟩ := h
      subst h1
      exact inner_state st kvs _ _ hi
  | null => simp [handle_jsonrpc, handle_jsonrpc_inner] at h
  | bool b => simp [handle_jsonrpc, handle_jsonrpc_inner] at h
  | num n => simp [handle_jsonrpc, handle_jsonrpc_inner] at h
  | str s => simp [handle_jsonrpc, handle_jsonrpc_inner] at h
  | arr xs => simp [handle_jsonrpc, handle_jsonrpc_inner] at h

theorem handleBatch_state : ∀ (l : List J) (st : MCPServer),
    (∀ r ∈ l, isInitReq r = false) → (handleBatch st l).1 = st := by
  intro l
  induction l with
  | nil => intro st _; rfl
  | cons r rest ih =>
    intro st hall
    rcases hd : handle_jsonrpc st r with e | pr
    · simp [handleBatch, hd]
    · obtain ⟨st1, resp⟩ := pr
      have hst1 : st1 = st := by
        rcases dispatch_state st r st1 resp hd with h | ⟨hi, _⟩
        · exact h
        · rw [hall r (by simp)] at hi
          cases hi
      subst hst1
      rcases hb : handleBatch st1 rest with ⟨st2, res⟩
      have hst2 : st2 = st1 := by
        have := ih st1 (fun x hx => hall x (by simp [hx]))
        rw [hb] at this
        exact this
      subst hst2
      cases res with
      | error e => simp [handleBatch, hd, hb]
      | ok tl => simp [handleBatch, hd, hb]

theorem route_other_state (loads : String → Except String J) (st : MCPServer)
    (m p : String) (hdrs : List (String × String)) (b? : Option String)
    (h1 : ¬(m = "POST" ∧ p = "/mcp")) (h2 : ¬(m = "DELETE" ∧ p = "/mcp")) :
    (route loads st m p hdrs b?).1 = st := by
  unfold route
  by_cases ho : m = "OPTIONS"
  · rw [if_pos ho]
  · rw [if_neg ho, if_neg h2, if_neg h1]
    by_cases hg1 : m = "GET" ∧ p = "/mcp"
    · rw [if_pos hg1]
    · rw [if_neg hg1]
      by_cases hg2 : m = "GET" ∧ p = "/"
      · rw [if_pos hg2]
      · rw [if_neg hg2]

-- ### Claim C9

/-- Claim C9 (confirmed): the session slot (an `Option`, hence at most one
token) changes only in two places — an `initialize` call stores a fresh token
(silently overwriting any prior one) and a `DELETE /mcp` whose header compares
equal clears it. Every other route leaves the whole state unchanged, a
`POST /mcp` whose parsed content contains no initialize request leaves the
whole state unchanged, and a dispatcher call either preserves the session or
is an initialize that set the fresh token. -/
theorem C9_session_invariant :
    (∀ (loads : String → Except String J) (st : MCPServer) (m p : String)
       (hdrs : List (String × String)) (b? : Option String),
       ¬(m = "POST" ∧ p = "/mcp") → ¬(m = "DELETE" ∧ p = "/mcp") →
       (route loads st m p hdrs b?).1 = st) ∧
    (∀ (loads : String → Except String J) (st : MCPServer)
       (hdrs : List (String × String)) (b? : Option String),
       (route loads st "DELETE" "/mcp" hdrs b?).1 =
         { st with session_id :=
             if dictGetStr hdrs "mcp-session-id" = st.session_id then none
             else st.session_id }) ∧
    (∀ (loads : String → Except String J) (st : MCPServer)
       (hdrs : List (String × String)) (b? : Option String),
       (∀ r ∈ postedRequests loads b?, isInitReq r = false) →
       (route loads st "POST" "/mcp" hdrs b?).1 = st) ∧
    (∀ (st : MCPServer) (r : J) (st1 : MCPServer) (o : Option J),
       handle_jsonrpc st r = .ok (st1, o) →
       st1.session_id = st.session_id ∨
       (isInitReq r = true ∧ st1.session_id = some (new_session_id st))) := by
  refine ⟨route_other_state, ?_, ?_, ?_⟩
  · intro loads st hdrs b?
    rw [route_delete_eq]
    by_cases h : dictGetStr hdrs "mcp-session-id" = st.session_id
    · rw [if_pos h, if_pos h]
    · rw [if_neg h, if_neg h]
  · intro loads st hdrs b? hall
    rw [route_post_eq]
    cases b? with
    | none => rfl
    | some body =>
      rcases hl : loads body with e | v
      · simp only [hl]
      · cases v with
        | arr rs =>
          have hstate : (handleBatch st (jarrToList rs)).1 = st := by
            apply handleBatch_state
            intro x hx
            apply hall
            simp [postedRequests, hl, hx]
          rcases hb : handleBatch st (jarrToList rs) with ⟨st1, res⟩
          rw [hb] at hstate
          cases res with
          | error e => simp only [hl, hb]; exact hstate
          | ok tl => simp only [hl, hb]; exact hstate
        | obj kvs =>
          rcases hd : handle_jsonrpc st (J.obj kvs) with e | pr
          · simp only [hl, hd]
          · obtain ⟨st1, resp⟩ := pr
            have hst1 : st1 = st := by
              rcases dispatch_state st (J.obj kvs) st1 resp hd with h | ⟨hi, _⟩
              · exact h
              · rw [hall (J.obj kvs) (by simp [postedRequests, hl])] at hi
                cases hi
            cases resp with
            | none => simp only [hl, hd]; exact hst1
            | some v => simp only [hl, hd]; exact hst1
        | null =>
          rcases hd : handle_jsonrpc st J.null with e | pr
          · simp only [hl, hd]
          · simp [handle_jsonrpc, handle_jsonrpc_inner] at hd
        | bool b =>
          rcases hd : handle_jsonrpc st (J.bool b) with e | pr
          · simp only [hl, hd]
          · simp [handle_jsonrpc, handle_jsonrpc_inner] at hd
        | num n =>
          rcases hd : handle_jsonrpc st (J.num n) with e | pr
          · simp only [hl, hd]
          · simp [handle_jsonrpc, handle_jsonrpc_inner] at hd
        | str s2 =>
          rcases hd : handle_jsonrpc st (J.str s2) with e | pr
          · simp only [hl, hd]
          · simp [handle_jsonrpc, handle_jsonrpc_inner] at hd
  · intro st r st1 o h
    rcases dispatch_state st r st1 o h with h1 | ⟨hi, h2⟩
    · exact Or.inl (by rw [h1])
    · exact Or.inr ⟨hi, by rw [h2]⟩

/-- Claim C9 witness: concrete instances — a `GET /` route leaves the state
unchanged, and a `POST /mcp` batch with no initialize leaves the state
unchanged. -/
theorem C9_witness :
    (route sampleLoads sessionServer "GET" "/" [] none).1 = sessionServer ∧
    (route sampleLoads sessionServer "POST" "/mcp" [] (some batchBody)).1 = sessionServer :=
  ⟨C9_session_invariant.1 sampleLoads sessionServer "GET" "/" [] none
     (by decide) (by decide),
   C9_session_invariant.2.2.1 sampleLoads sessionServer [] (some batchBody)
     (by decide)⟩

-- ### Claim C10

/-- Claim C10 (confirmed): `_send_http_response` attaches the
`Mcp-Session-Id` header automatically whenever a (non-empty) session token
exists and no extra-headers argument is passed. The call sites reached without
extra headers behave accordingly — in particular a `DELETE /mcp` presenting a
wrong token receives the current valid token in the headers of its 404 reply;
the OPTIONS 204, the `GET /mcp` 501 and the catch-all 404 likewise reply with
the automatic session header position. -/
theorem C10_session_header :
    (∀ (tok status ct body : String), tok ≠ "" →
      ("Mcp-Session-Id", tok) ∈ (send_http_response (some tok) status ct body none).headers) ∧
    (∀ (loads : String → Except String J) (st : MCPServer)
       (hdrs : List (String × String)) (b? : Option String) (tok : String),
       st.session_id = some tok → tok ≠ "" →
       dictGetStr hdrs "mcp-session-id" ≠ some tok →
       route loads st "DELETE" "/mcp" hdrs b? =
         (st, [send_http_response (some tok) "404 Not Found" "application/json"
                 "\x7b\x22error\x22:\x22Session not found\x22\x7d" none]) ∧
       ("Mcp-Session-Id", tok) ∈
         (send_http_response (some tok) "404 Not Found" "application/json"
           "\x7b\x22error\x22:\x22Session not found\x22\x7d" none).headers) ∧
    (∀ (loads : String → Except String J) (st : MCPServer) (p : String)
       (hdrs : List (String × String)) (b? : Option String) (tok : String),
       st.session_id = some tok →
       (route loads st "OPTIONS" p hdrs b?).2 =
         [send_http_response (some tok) "204 No Content" "text/plain" "" none]) ∧
    (∀ (loads : String → Except String J) (st : MCPServer)
       (hdrs : List (String × String)) (b? : Option String) (tok : String),
       st.session_id = some tok →
       (route loads st "GET" "/mcp" hdrs b?).2 =
         [send_http_response (some tok) "501 Not Implemented" "application/json"
            (dumps (J.obj (jobj
              [("error", J.str "GET/SSE streaming not implemented on Pico")]))) none]) ∧
    (∀ (loads : String → Except String J) (st : MCPServer) (m p : String)
       (hdrs : List (String × String)) (b? : Option String) (tok : String),
       st.session_id = some tok →
       m ≠ "OPTIONS" → ¬(m = "DELETE" ∧ p = "/mcp") → ¬(m = "POST" ∧ p = "/mcp") →
       ¬(m = "GET" ∧ p = "/mcp") → ¬(m = "GET" ∧ p = "/") →
       (route loads st m p hdrs b?).2 =
         [send_http_response (some tok) "404 Not Found" "text/plain" "Not Found" none]) := by
  refine ⟨?_, ?_, ?_, ?_, ?_⟩
  · intro tok status ct body h
    simp [send_http_response, h]
  · intro loads st hdrs b? tok hsess htok hne
    constructor
    · rw [route_delete_404 loads st hdrs b? (by rw [hsess]; exact hne), hsess]
    · simp [send_http_response, htok]
  · intro loads st p hdrs b? tok hsess
    unfold route
    rw [if_pos rfl, hsess]
  · intro loads st hdrs b? tok hsess
    unfold route
    rw [if_neg (by decide : ¬("GET" = "OPTIONS"))]
    rw [if_neg (by decide : ¬("GET" = "DELETE" ∧ "/mcp" = "/mcp"))]
    rw [if_neg (by decide : ¬("GET" = "POST" ∧ "/mcp" = "/mcp"))]
    rw [if_pos (⟨rfl, rfl⟩ : "GET" = "GET" ∧ "/mcp" = "/mcp"), hsess]
  · intro loads st m p hdrs b? tok hsess h1 h2 h3 h4 h5
    unfold route
    rw [if_neg h1, if_neg h2, if_neg h3, if_neg h4, if_neg h5, hsess]

/-- Claim C10 witness: a `DELETE /mcp` with a wrong token on a server holding
session `e661-7` gets a 404 carrying `Mcp-Session-Id: e661-7`. -/
theorem C10_witness :
    route sampleLoads sessionServer "DELETE" "/mcp" [("mcp-session-id", "zz")] none =
      (sessionServer, [send_http_response (some "e661-7") "404 Not Found" "application/json"
         "\x7b\x22error\x22:\x22Session not found\x22\x7d" none]) ∧
    ("Mcp-Session-Id", "e661-7") ∈
      (send_http_response (some "e661-7") "404 Not Found" "application/json"
        "\x7b\x22error\x22:\x22Session not found\x22\x7d" none).headers :=
  C10_session_header.2.1 sampleLoads sessionServer [("mcp-session-id", "zz")] none "e661-7"
    rfl (by decide) (by decide)
